import Mathlib

/-!
Verification of the capacity/admission engine of the team-registration bot.

The embedding below translates the decision logic of `src/main.py` and the
data model of `src/models.py` into Lean:

* `createStatus` is the status decision of `players_step` (main.py 323-332);
* `editStatus` is the status decision of `edit_players_apply` (main.py 459-471);
* `count_confirmed_teams` / `sum_confirmed_people` are the aggregate queries
  (main.py 75-95), modelled over a list of registrations;
* `register`, `edit_players_apply`, `edit_name_apply`, `delete_registration`,
  `admin_toggle_game`, `admin_delete_game` model the transactional operations,
  with the SQLAlchemy unique constraints of `models.py` (game+user, game+team
  name) and the declared delete cascade made explicit.

Machine integers of the source are Python unbounded ints holding non-negative
counts, sums, ids and capacities, so they are embedded as `Nat`.  Timestamps
are omitted: no claim concerns them.  Statuses are kept as the literal strings
`"confirmed"` / `"waitlist"` that the source stores.
-/

/-- A game row (`models.py` 7-26).  `title`, `when`, `location`, `created_at`
are presentation-only and omitted; capacities are optional (`none` means
unlimited). -/
structure Game where
  id : Nat
  teams_capacity : Option Nat
  people_capacity : Option Nat
  is_active : Bool
  deriving DecidableEq, Repr

/-- A registration row (`models.py` 28-45), timestamps omitted. -/
structure Registration where
  id : Nat
  user_id : Nat
  chat_id : Nat
  game_id : Nat
  team_name : String
  players : Nat
  status : String
  deriving DecidableEq, Repr

/-- The persistent state: the two tables. -/
structure DB where
  games : List Game
  regs : List Registration
  deriving DecidableEq, Repr

/-- Create-path status decision, transcribed from `players_step`
(main.py 323-332):

    teams_over  = (game.teams_capacity is not None) and (confirmed_teams >= game.teams_capacity)
    people_over = (game.people_capacity is not None) and ((confirmed_people + players) > game.people_capacity)
    status = "waitlist" if (teams_over or people_over) else "confirmed"

`confirmed_teams` / `confirmed_people` are the aggregates over already
confirmed registrations of the game, the candidate not yet inserted. -/
def createStatus (teams_capacity people_capacity : Option Nat)
    (confirmed_teams confirmed_people players : Nat) : String :=
  let teams_over : Bool :=
    match teams_capacity with
    | none => false
    | some cap => decide (confirmed_teams ≥ cap)
  let people_over : Bool :=
    match people_capacity with
    | none => false
    | some cap => decide (confirmed_people + players > cap)
  if teams_over || people_over then "waitlist" else "confirmed"

/-- Edit-path status decision, transcribed from `edit_players_apply`
(main.py 468-471):

    teams_over  = (game.teams_capacity is not None) and (confirmed_teams > game.teams_capacity)
    people_over = (game.people_capacity is not None) and ((confirmed_people_excl + players) > game.people_capacity)
    reg.status = "waitlist" if (teams_over or people_over) else "confirmed"

Here `confirmed_teams` is `count_confirmed_teams` WITHOUT exclusion — the
source's own comment (main.py 465) notes that the edited registration is
counted among the confirmed when it is itself confirmed — while
`confirmed_people_excl` excludes the edited registration. -/
def editStatus (teams_capacity people_capacity : Option Nat)
    (confirmed_teams confirmed_people_excl players : Nat) : String :=
  let teams_over : Bool :=
    match teams_capacity with
    | none => false
    | some cap => decide (confirmed_teams > cap)
  let people_over : Bool :=
    match people_capacity with
    | none => false
    | some cap => decide (confirmed_people_excl + players > cap)
  if teams_over || people_over then "waitlist" else "confirmed"

/-- The edit-path decision of the code expressed over the aggregates of the
OTHER registrations: `count_confirmed_teams` counts the edited registration
itself exactly when it is currently confirmed (main.py 463-465), so the
count the code compares is `others_teams + (if was_confirmed then 1 else 0)`. -/
def editStatusOthers (teams_capacity people_capacity : Option Nat)
    (others_teams others_people players : Nat) (was_confirmed : Bool) : String :=
  editStatus teams_capacity people_capacity
    (others_teams + (if was_confirmed then 1 else 0)) others_people players

/-- The edit-path evaluator as the SPEC phrases it (spec §4.1 re-evaluation
paragraph), for comparison with `editStatusOthers`: both aggregates are those
of the other confirmed registrations, and the team-count comparison is strict
`>` instead of `>=` exactly when the edited registration was itself already
confirmed. -/
def editStatusSpec (teams_capacity people_capacity : Option Nat)
    (others_teams others_people players : Nat) (was_confirmed : Bool) : String :=
  let teams_over : Bool :=
    match teams_capacity with
    | none => false
    | some cap =>
        if was_confirmed then decide (others_teams > cap) else decide (others_teams ≥ cap)
  let people_over : Bool :=
    match people_capacity with
    | none => false
    | some cap => decide (others_people + players > cap)
  if teams_over || people_over then "waitlist" else "confirmed"

/-- The edit-path evaluator over other-registration aggregates as the code
actually behaves (the amended form of the spec's description): the team-count
comparison is `>=` when the edited registration was itself already confirmed
and strict `>` when it was not. -/
def editStatusSpecAmended (teams_capacity people_capacity : Option Nat)
    (others_teams others_people players : Nat) (was_confirmed : Bool) : String :=
  let teams_over : Bool :=
    match teams_capacity with
    | none => false
    | some cap =>
        if was_confirmed then decide (others_teams ≥ cap) else decide (others_teams > cap)
  let people_over : Bool :=
    match people_capacity with
    | none => false
    | some cap => decide (others_people + players > cap)
  if teams_over || people_over then "waitlist" else "confirmed"

/-- `count_confirmed_teams` (main.py 75-83): number of registrations of the
game whose status is `"confirmed"`. -/
def count_confirmed_teams (regs : List Registration) (game_id : Nat) : Nat :=
  (regs.filter (fun r => r.game_id == game_id && r.status == "confirmed")).length

/-- `sum_confirmed_people` (main.py 86-95): sum of `players` over the
confirmed registrations of the game, optionally excluding one registration
by id. -/
def sum_confirmed_people (regs : List Registration) (game_id : Nat)
    (exclude_reg_id : Option Nat) : Nat :=
  ((regs.filter (fun r =>
      r.game_id == game_id && r.status == "confirmed" &&
      (match exclude_reg_id with
       | none => true
       | some rid => r.id != rid))).map (fun r => r.players)).sum

/-- `s.get(Game, game_id)`: lookup of a game row by primary key. -/
def findGame (db : DB) (game_id : Nat) : Option Game :=
  db.games.find? (fun g => g.id == game_id)

/-- `s.get(Registration, reg_id)`: lookup of a registration row by primary
key. -/
def findReg (db : DB) (reg_id : Nat) : Option Registration :=
  db.regs.find? (fun r => r.id == reg_id)

/-- Autoincrement primary key for a newly inserted registration. -/
def freshRegId (db : DB) : Nat :=
  (db.regs.map (fun r => r.id)).foldr max 0 + 1

/-- Errors surfaced by the operations (spec §7 taxonomy as observable in the
code paths: the handlers answer with distinct user messages). The code shows
the same "game unavailable" message for a missing and for an inactive game
(main.py 229-231, 318-321), so both are `InactiveGame` here.  A wrong-owner
edit or delete answers "registration not found" (main.py 453-456, 485-486),
so it is `NotFound`. -/
inductive RegError where
  | InactiveGame
  | DuplicateRegistration
  | ValidationError
  | NotFound
  deriving DecidableEq, Repr

/-- The registration flow as one transaction, in the order the handlers run
the checks: `choose_game` (main.py 227-241) checks the game is present and
active and that the user has no registration for it yet; `team_name_step`
(main.py 275-293) validates the name length and that the team name is free
in this game; `players_step` (main.py 296-346) validates the player count,
evaluates the status with `createStatus` over the current aggregates and
inserts the row.  The two unique constraints of `models.py` 30-33
(game+user, game+team_name) are exactly the two duplicate checks. An error
leaves the store unchanged (`session_scope` rolls back, main.py 55-63). -/
def register (db : DB) (game_id user_id chat_id : Nat) (team_name : String)
    (players : Nat) : Except RegError DB :=
  match findGame db game_id with
  | none => .error .InactiveGame
  | some game =>
    if game.is_active = false then .error .InactiveGame
    else if (db.regs.find? (fun r => r.user_id == user_id && r.game_id == game_id)).isSome then
      .error .DuplicateRegistration
    else if ¬ (2 ≤ team_name.length ∧ team_name.length ≤ 40) then
      .error .ValidationError
    else if (db.regs.find? (fun r => r.game_id == game_id && r.team_name == team_name)).isSome then
      .error .DuplicateRegistration
    else if ¬ (1 ≤ players ∧ players ≤ 12) then
      .error .ValidationError
    else
      let confirmed_teams := count_confirmed_teams db.regs game_id
      let confirmed_people := sum_confirmed_people db.regs game_id none
      let status := createStatus game.teams_capacity game.people_capacity
        confirmed_teams confirmed_people players
      .ok { db with
        regs := db.regs ++ [{ id := freshRegId db, user_id := user_id,
                              chat_id := chat_id, game_id := game_id,
                              team_name := team_name, players := players,
                              status := status }] }

/-- The store after a registration attempt: on error the rollback of
`session_scope` leaves it unchanged. -/
def registerRun (db : DB) (game_id user_id chat_id : Nat) (team_name : String)
    (players : Nat) : DB :=
  match register db game_id user_id chat_id team_name players with
  | .ok db' => db'
  | .error _ => db

/-- `edit_players_apply` (main.py 435-474): validate the new player count,
look the registration up, require the caller to own it, update `players`,
recompute the aggregates (team count WITHOUT exclusion, people sum excluding
this registration) and store the `editStatus` result. -/
def edit_players_apply (db : DB) (reg_id user_id players : Nat) :
    Except RegError DB :=
  if ¬ (1 ≤ players ∧ players ≤ 12) then .error .ValidationError
  else
    match findReg db reg_id with
    | none => .error .NotFound
    | some reg =>
      if reg.user_id ≠ user_id then .error .NotFound
      else
        match findGame db reg.game_id with
        | none => .error .NotFound
        | some game =>
          let regs1 := db.regs.map (fun r =>
            if r.id == reg_id then { r with players := players } else r)
          let confirmed_teams := count_confirmed_teams regs1 reg.game_id
          let confirmed_people_excl :=
            sum_confirmed_people regs1 reg.game_id (some reg_id)
          let status := editStatus game.teams_capacity game.people_capacity
            confirmed_teams confirmed_people_excl players
          .ok { db with
            regs := regs1.map (fun r =>
              if r.id == reg_id then { r with status := status } else r) }

/-- `edit_name_apply` (main.py 384-420): validate the new name length, look
the registration up, require ownership, reject a name already used in the
same game by another registration, then update the name. -/
def edit_name_apply (db : DB) (reg_id user_id : Nat) (team_name : String) :
    Except RegError DB :=
  if ¬ (2 ≤ team_name.length ∧ team_name.length ≤ 40) then .error .ValidationError
  else
    match findReg db reg_id with
    | none => .error .NotFound
    | some reg =>
      if reg.user_id ≠ user_id then .error .NotFound
      else if (db.regs.find? (fun r =>
          r.game_id == reg.game_id && r.team_name == team_name && r.id != reg_id)).isSome then
        .error .DuplicateRegistration
      else
        .ok { db with
          regs := db.regs.map (fun r =>
            if r.id == reg_id then { r with team_name := team_name } else r) }

/-- `delete_registration` (main.py 477-490): delete the row if it exists and
the caller owns it; nothing else is touched. -/
def delete_registration (db : DB) (reg_id user_id : Nat) : Except RegError DB :=
  match findReg db reg_id with
  | none => .error .NotFound
  | some reg =>
    if reg.user_id ≠ user_id then .error .NotFound
    else .ok { db with regs := db.regs.filter (fun r => r.id != reg_id) }

/-- `admin_toggle_game` (main.py 558-581): flip the `is_active` flag of the
game.  No registration is read or written. -/
def admin_toggle_game (db : DB) (game_id : Nat) : Except RegError DB :=
  match findGame db game_id with
  | none => .error .NotFound
  | some _ =>
    .ok { db with
      games := db.games.map (fun g =>
        if g.id == game_id then { g with is_active := !g.is_active } else g) }

/-- `admin_delete_game` (main.py 651-665): delete the game row; the mapped
cascade of `models.py` 22-26 (`cascade="all, delete-orphan"`, plus
`ondelete="CASCADE"` on `Registration.game_id`, models.py 38) deletes every
registration referencing it. -/
def admin_delete_game (db : DB) (game_id : Nat) : Except RegError DB :=
  match findGame db game_id with
  | none => .error .NotFound
  | some _ =>
    .ok { games := db.games.filter (fun g => g.id != game_id),
          regs := db.regs.filter (fun r => r.game_id != game_id) }

/-- The implicit status-domain invariant: a stored status is one of the two
strings the code ever writes (`models.py` 41: `confirmed|waitlist`). -/
def statusOk (s : String) : Prop :=
  s = "confirmed" ∨ s = "waitlist"

instance (s : String) : Decidable (statusOk s) := by
  unfold statusOk; infer_instance

/-- Every stored registration has a status in the two-value domain. -/
def dbInv (db : DB) : Prop :=
  ∀ r ∈ db.regs, statusOk r.status

instance (db : DB) : Decidable (dbInv db) := by
  unfold dbInv; infer_instance

example : createStatus (some 2) (some 10) 1 4 5 = "confirmed" := by decide
example : createStatus (some 2) (some 10) 2 9 1 = "waitlist" := by decide
example : createStatus (some 2) (some 10) 1 9 2 = "waitlist" := by decide
example : createStatus none none 1000 1000 12 = "confirmed" := by decide
example : editStatus (some 2) (some 10) 2 5 7 = "waitlist" := by decide
example : editStatusOthers (some 1) none 1 0 1 true = "waitlist" := by decide
example : editStatusOthers (some 1) none 1 0 1 false = "confirmed" := by decide
example : editStatusSpec (some 1) none 1 0 1 true = "confirmed" := by decide

/-! ## Helper lemmas about the two-string status codomain -/

theorem status_ite_eq_waitlist (b : Bool) :
    ((if b then "waitlist" else "confirmed" : String) = "waitlist") ↔ b = true := by
  cases b <;> decide

theorem status_ite_eq_confirmed (b : Bool) :
    ((if b then "waitlist" else "confirmed" : String) = "confirmed") ↔ b = false := by
  cases b <;> decide

theorem status_ite_cases (b : Bool) :
    (if b then "waitlist" else "confirmed" : String) = "waitlist" ∨
    (if b then "waitlist" else "confirmed" : String) = "confirmed" := by
  cases b
  · exact Or.inr rfl
  · exact Or.inl rfl

/-- Propositional characterisation of the create-path waitlist outcome. -/
theorem createStatus_eq_waitlist_iff (tc pc : Option Nat) (ct cp p : Nat) :
    createStatus tc pc ct cp p = "waitlist" ↔
      ((∃ cap, tc = some cap ∧ cap ≤ ct) ∨ (∃ cap, pc = some cap ∧ cap < cp + p)) := by
  cases tc <;> cases pc <;>
    simp [createStatus, status_ite_eq_waitlist] <;> omega

/-- Propositional characterisation of the create-path confirmed outcome. -/
theorem createStatus_eq_confirmed_iff (tc pc : Option Nat) (ct cp p : Nat) :
    createStatus tc pc ct cp p = "confirmed" ↔
      ¬ ((∃ cap, tc = some cap ∧ cap ≤ ct) ∨ (∃ cap, pc = some cap ∧ cap < cp + p)) := by
  cases tc <;> cases pc <;>
    simp [createStatus, status_ite_eq_confirmed, Nat.not_lt, Nat.not_le]

/-- The create path only ever produces the two statuses. -/
theorem createStatus_cases (tc pc : Option Nat) (ct cp p : Nat) :
    createStatus tc pc ct cp p = "waitlist" ∨ createStatus tc pc ct cp p = "confirmed" := by
  unfold createStatus
  exact status_ite_cases _

/-- Propositional characterisation of the edit-path waitlist outcome (note the
strict comparison on the team count, main.py 468). -/
theorem editStatus_eq_waitlist_iff (tc pc : Option Nat) (ct cp p : Nat) :
    editStatus tc pc ct cp p = "waitlist" ↔
      ((∃ cap, tc = some cap ∧ cap < ct) ∨ (∃ cap, pc = some cap ∧ cap < cp + p)) := by
  cases tc <;> cases pc <;>
    simp [editStatus, status_ite_eq_waitlist] <;> omega

/-- Propositional characterisation of the edit-path confirmed outcome. -/
theorem editStatus_eq_confirmed_iff (tc pc : Option Nat) (ct cp p : Nat) :
    editStatus tc pc ct cp p = "confirmed" ↔
      ¬ ((∃ cap, tc = some cap ∧ cap < ct) ∨ (∃ cap, pc = some cap ∧ cap < cp + p)) := by
  cases tc <;> cases pc <;>
    simp [editStatus, status_ite_eq_confirmed, Nat.not_lt, Nat.not_le]

/-- The edit path only ever produces the two statuses. -/
theorem editStatus_cases (tc pc : Option Nat) (ct cp p : Nat) :
    editStatus tc pc ct cp p = "waitlist" ∨ editStatus tc pc ct cp p = "confirmed" := by
  unfold editStatus
  exact status_ite_cases _

/-! ## Claim C1: create-path evaluation -/

/-- C1.  Create-path evaluation (players_step, main.py 323-332): with
`confirmedTeams` / `confirmedPeople` the aggregates over already confirmed
registrations of the game and `candidatePlayers` in 1..12, the status is
WAITLIST iff (teamsCapacity is set and confirmedTeams >= teamsCapacity) or
(peopleCapacity is set and confirmedPeople + candidatePlayers >
peopleCapacity), and CONFIRMED otherwise; in particular with
`teamsCapacity = N` and `N` teams already confirmed the next attempt is
WAITLIST, and the N-th attempt (N-1 confirmed, people check passing, as the
stated rule requires) is CONFIRMED. -/
theorem create_path_evaluation (tc pc : Option Nat) (ct cp p : Nat)
    (hp1 : 1 ≤ p) (hp2 : p ≤ 12) :
    (createStatus tc pc ct cp p = "waitlist" ↔
        ((∃ cap, tc = some cap ∧ cap ≤ ct) ∨ (∃ cap, pc = some cap ∧ cap < cp + p)))
    ∧ (createStatus tc pc ct cp p = "confirmed" ↔
        ¬ ((∃ cap, tc = some cap ∧ cap ≤ ct) ∨ (∃ cap, pc = some cap ∧ cap < cp + p)))
    ∧ (∀ N, createStatus (some N) pc N cp p = "waitlist")
    ∧ (∀ N, 1 ≤ N → (∀ cap, pc = some cap → cp + p ≤ cap) →
        createStatus (some N) pc (N - 1) cp p = "confirmed") := by
  refine ⟨createStatus_eq_waitlist_iff tc pc ct cp p,
          createStatus_eq_confirmed_iff tc pc ct cp p, ?_, ?_⟩
  · intro N
    exact (createStatus_eq_waitlist_iff (some N) pc N cp p).mpr
      (Or.inl ⟨N, rfl, Nat.le_refl N⟩)
  · intro N hN hpc
    refine (createStatus_eq_confirmed_iff (some N) pc (N - 1) cp p).mpr ?_
    rintro (⟨cap, hcap, hle⟩ | ⟨cap, hcap, hlt⟩)
    · cases Option.some.injEq .. ▸ hcap
      omega
    · exact absurd hlt (Nat.not_lt.mpr (hpc cap hcap))

/-- Witness for C1 at concrete inputs: `teamsCapacity = 2`, two teams already
confirmed, candidate of 3 players is waitlisted; with one confirmed the
second (N-th) attempt is confirmed. -/
theorem create_path_evaluation_witness :
    (1 ≤ 3 ∧ 3 ≤ 12)
    ∧ createStatus (some 2) none 2 0 3 = "waitlist"
    ∧ createStatus (some 2) none 1 0 3 = "confirmed" :=
  ⟨by decide,
   (create_path_evaluation (some 2) none 2 0 3 (by decide) (by decide)).2.2.1 2,
   by
     have h := (create_path_evaluation (some 2) none 1 0 3 (by decide)
       (by decide)).2.2.2 2 (by decide) (by intro cap hcap; cases hcap)
     simpa using h⟩

/-! ## Claim C2: edit-path re-evaluation -/

/-- C2 counterexample.  The claim states the edit path compares the OTHER
confirmed team count with strict `>` when the edited registration was itself
confirmed.  The code (edit_players_apply, main.py 463-471) counts the edited
registration among the confirmed and compares with `>`, i.e. `>=` over the
others.  At teamsCapacity 1, one OTHER confirmed team, edited registration
confirmed, no people limit: the code waitlists, the claim's rule confirms. -/
theorem edit_path_claimed_rule_counterexample :
    editStatusOthers (some 1) none 1 0 1 true = "waitlist"
    ∧ editStatusSpec (some 1) none 1 0 1 true = "confirmed"
    ∧ editStatusOthers (some 1) none 1 0 1 true ≠ editStatusSpec (some 1) none 1 0 1 true := by
  decide

/-- C2 amended.  Edit-path re-evaluation uses the creation algorithm with the
people aggregate taken over the OTHER confirmed registrations, while the team
count includes the edited registration itself when it was confirmed and is
compared with strict `>`; over the other-registration aggregate this makes
the team comparison `>=` when the edited registration was already confirmed
and strict `>` when it was not (the opposite of the claimed substitution). -/
theorem edit_path_matches_amended_rule (tc pc : Option Nat)
    (others_teams others_people players : Nat) (was_confirmed : Bool) :
    editStatusOthers tc pc others_teams others_people players was_confirmed
      = editStatusSpecAmended tc pc others_teams others_people players was_confirmed := by
  cases tc with
  | none =>
      cases was_confirmed <;>
        simp [editStatusOthers, editStatus, editStatusSpecAmended]
  | some cap =>
      cases was_confirmed with
      | false =>
          simp [editStatusOthers, editStatus, editStatusSpecAmended]
      | true =>
          have h : decide (others_teams + 1 > cap) = decide (others_teams ≥ cap) :=
            decide_eq_decide.mpr (by omega)
          simp only [editStatusOthers, editStatus, editStatusSpecAmended,
            if_true, Nat.add_zero, reduceIte]
          rw [h]

/-! ## Claim C3: idempotence of re-evaluation -/

/-- C3 counterexample.  With teamsCapacity 1, one OTHER confirmed team, no
people limit and an unchanged player count, the edit-path evaluation maps a
confirmed registration to waitlist and a waitlisted one back to confirmed:
re-running the evaluation with unchanged `players` and unchanged confirmed
aggregates of the other registrations flips the status each time instead of
preserving it. -/
theorem reevaluation_oscillates :
    editStatusOthers (some 1) none 1 0 1 ("confirmed" == "confirmed") = "waitlist"
    ∧ editStatusOthers (some 1) none 1 0 1 ("waitlist" == "confirmed") = "confirmed" := by
  decide

/-- C3 amended.  Re-running the edit-path evaluation with unchanged `players`
and unchanged aggregates of the other confirmed registrations reproduces the
status the previous evaluation produced, PROVIDED the team capacity is unset,
differs from the other-confirmed team count, or the people check overflows;
in the excluded case (capacity set and exactly equal to the other-confirmed
count, people fitting) each re-evaluation flips the status. -/
theorem reevaluation_idempotent (tc pc : Option Nat)
    (others_teams others_people players : Nat) (s : String)
    (h : ∀ cap, tc = some cap →
      others_teams ≠ cap ∨ ∃ pcap, pc = some pcap ∧ pcap < others_people + players) :
    editStatusOthers tc pc others_teams others_people players
        (editStatusOthers tc pc others_teams others_people players (s == "confirmed")
          == "confirmed")
      = editStatusOthers tc pc others_teams others_people players (s == "confirmed") := by
  have key : ∀ b b' : Bool,
      editStatusOthers tc pc others_teams others_people players b = "waitlist" →
      editStatusOthers tc pc others_teams others_people players b' = "waitlist" := by
    intro b b' hb
    have hb1 : (if b then (1 : Nat) else 0) ≤ 1 := by cases b <;> simp
    rw [editStatusOthers, editStatus_eq_waitlist_iff] at hb
    rw [editStatusOthers, editStatus_eq_waitlist_iff]
    rcases hb with ⟨cap, hcap, hlt⟩ | hp2
    · rcases h cap hcap with hne | ⟨pcap, hpc, hover⟩
      · exact Or.inl ⟨cap, hcap, by omega⟩
      · exact Or.inr ⟨pcap, hpc, hover⟩
    · exact Or.inr hp2
  have hconst : ∀ b b' : Bool,
      editStatusOthers tc pc others_teams others_people players b
        = editStatusOthers tc pc others_teams others_people players b' := by
    intro b b'
    rcases editStatus_cases tc pc (others_teams + (if b then 1 else 0))
        others_people players with hb | hb <;>
      rcases editStatus_cases tc pc (others_teams + (if b' then 1 else 0))
          others_people players with hb' | hb'
    · rw [show editStatusOthers tc pc others_teams others_people players b
            = editStatus tc pc (others_teams + (if b then 1 else 0)) others_people players
          from rfl, hb,
          show editStatusOthers tc pc others_teams others_people players b'
            = editStatus tc pc (others_teams + (if b' then 1 else 0)) others_people players
          from rfl, hb']
    · exact absurd (key b b' hb) (by
        show ¬ editStatus tc pc (others_teams + (if b' then 1 else 0)) others_people players
          = "waitlist"
        rw [hb']; decide)
    · exact absurd (key b' b hb') (by
        show ¬ editStatus tc pc (others_teams + (if b then 1 else 0)) others_people players
          = "waitlist"
        rw [hb]; decide)
    · rw [show editStatusOthers tc pc others_teams others_people players b
            = editStatus tc pc (others_teams + (if b then 1 else 0)) others_people players
          from rfl, hb,
          show editStatusOthers tc pc others_teams others_people players b'
            = editStatus tc pc (others_teams + (if b' then 1 else 0)) others_people players
          from rfl, hb']
  exact hconst _ _

/-- Witness for C3 amended at concrete inputs: capacity 3, two other
confirmed teams, re-evaluation reproduces the previous result. -/
theorem reevaluation_idempotent_witness :
    editStatusOthers (some 3) none 2 0 1
        (editStatusOthers (some 3) none 2 0 1 ("confirmed" == "confirmed") == "confirmed")
      = editStatusOthers (some 3) none 2 0 1 ("confirmed" == "confirmed") :=
  reevaluation_idempotent (some 3) none 2 0 1 "confirmed"
    (by intro cap hcap; cases hcap; exact Or.inl (by decide))

/-! ## Claim C5: people-capacity rule -/

/-- C5 counterexample.  The claimed iff ignores the team limit: with
`peopleCapacity = 10`, `teamsCapacity = 1` and one confirmed team, a
1-player candidate over 0 confirmed people satisfies
`confirmedPeople + candidatePlayers <= P` yet the code waitlists it
(players_step, main.py 328-332), so "CONFIRMED iff the people total fits"
fails as stated. -/
theorem people_capacity_rule_counterexample :
    ¬ (createStatus (some 1) (some 10) 1 0 1 = "confirmed" ↔ 0 + 1 ≤ 10) := by
  decide

/-- C5 amended.  For a game with `peopleCapacity = P`, a candidate whose
evaluation the team limit does not block (teamsCapacity unset or
confirmedTeams < teamsCapacity) is CONFIRMED iff
`confirmedPeople + candidatePlayers <= P`; in particular exact equality with
`P` confirms. -/
theorem people_capacity_rule (tc : Option Nat) (P ct cp p : Nat)
    (hteams : ∀ cap, tc = some cap → ct < cap) :
    (createStatus tc (some P) ct cp p = "confirmed" ↔ cp + p ≤ P)
    ∧ (cp + p = P → createStatus tc (some P) ct cp p = "confirmed") := by
  constructor
  · rw [createStatus_eq_confirmed_iff]
    constructor
    · intro hno
      by_contra hgt
      exact hno (Or.inr ⟨P, rfl, by omega⟩)
    · intro hle
      rintro (⟨cap, hcap, hle2⟩ | ⟨cap, hcap, hlt⟩)
      · exact absurd hle2 (Nat.not_le.mpr (hteams cap hcap))
      · cases Option.some.injEq .. ▸ hcap
        omega
  · intro heq
    rw [createStatus_eq_confirmed_iff]
    rintro (⟨cap, hcap, hle2⟩ | ⟨cap, hcap, hlt⟩)
    · exact absurd hle2 (Nat.not_le.mpr (hteams cap hcap))
    · cases Option.some.injEq .. ▸ hcap
      omega

/-- Witness for C5 amended: `peopleCapacity = 10`, team limit 3 not reached,
4 confirmed people, 6-player candidate fills the capacity exactly and is
confirmed. -/
theorem people_capacity_rule_witness :
    (1 < 3) ∧ createStatus (some 3) (some 10) 1 4 6 = "confirmed" :=
  ⟨by decide,
   (people_capacity_rule (some 3) 10 1 4 6
      (by intro cap hcap; cases Option.some.injEq .. ▸ hcap; decide)).2 rfl⟩

/-! ## Claim C10: create-path monotonicity in the player count -/

/-- C10.  For fixed limits and fixed confirmed aggregates, if a candidate
with `p` players is CONFIRMED on the create path then so is every candidate
with `p' <= p` players. -/
theorem create_path_monotone (tc pc : Option Nat) (ct cp p p' : Nat)
    (hle : p' ≤ p) (hc : createStatus tc pc ct cp p = "confirmed") :
    createStatus tc pc ct cp p' = "confirmed" := by
  rw [createStatus_eq_confirmed_iff] at hc ⊢
  rintro (⟨cap, hcap, h2⟩ | ⟨cap, hcap, h2⟩)
  · exact hc (Or.inl ⟨cap, hcap, h2⟩)
  · exact hc (Or.inr ⟨cap, hcap, by omega⟩)

/-- Witness for C10: 9 confirmed people, capacity 12, a 3-player candidate is
confirmed, hence so is a 2-player one. -/
theorem create_path_monotone_witness :
    (2 ≤ 3 ∧ createStatus none (some 12) 5 9 3 = "confirmed")
    ∧ createStatus none (some 12) 5 9 2 = "confirmed" :=
  ⟨⟨by decide, by decide⟩,
   create_path_monotone none (some 12) 5 9 3 2 (by decide) (by decide)⟩

/-! ## Claim C4: uniqueness -/

/-- C4.  If a registration already exists for (gameId, identity), a second
attempt by the same identity for the same game fails with
DuplicateRegistration (and, the operation returning an error, inserts
nothing); likewise a second attempt using an already-taken (gameId, teamName)
by a different identity fails with DuplicateRegistration (the stored team
name being of valid length, as every stored registration's is). -/
theorem duplicate_registration_rejected (db : DB) (g : Game) (r : Registration)
    (hg : findGame db g.id = some g) (hact : g.is_active = true)
    (hr : r ∈ db.regs) (hrg : r.game_id = g.id) :
    (∀ chat_id team_name players,
        register db g.id r.user_id chat_id team_name players
          = .error .DuplicateRegistration)
    ∧ (∀ uid chat_id players, uid ≠ r.user_id →
        2 ≤ r.team_name.length → r.team_name.length ≤ 40 →
        register db g.id uid chat_id r.team_name players
          = .error .DuplicateRegistration) := by
  constructor
  · intro chat_id team_name players
    have hdup : (db.regs.find? (fun r2 =>
        r2.user_id == r.user_id && r2.game_id == g.id)).isSome := by
      exact List.find?_isSome.mpr ⟨r, hr, by simp [hrg]⟩
    simp [register, hg, hact, hdup]
  · intro uid chat_id players hne hlen1 hlen2
    by_cases huser :
        (db.regs.find? (fun r2 => r2.user_id == uid && r2.game_id == g.id)).isSome
    · simp [register, hg, hact, huser]
    · have hname : (db.regs.find? (fun r2 =>
          r2.game_id == g.id && r2.team_name == r.team_name)).isSome := by
        exact List.find?_isSome.mpr ⟨r, hr, by simp [hrg]⟩
      simp [register, hg, hact, huser, hname, hlen1, hlen2]

/-- Witness for C4: a store with game 1 (active) and a registration of user
10 with team name "ab"; user 10 again, and user 11 reusing "ab", are both
rejected as duplicates. -/
theorem duplicate_registration_rejected_witness :
    register ⟨[⟨1, none, none, true⟩], [⟨1, 10, 20, 1, "ab", 3, "confirmed"⟩]⟩
        1 10 99 "cd" 2 = .error .DuplicateRegistration
    ∧ register ⟨[⟨1, none, none, true⟩], [⟨1, 10, 20, 1, "ab", 3, "confirmed"⟩]⟩
        1 11 99 "ab" 2 = .error .DuplicateRegistration :=
  ⟨(duplicate_registration_rejected
      ⟨[⟨1, none, none, true⟩], [⟨1, 10, 20, 1, "ab", 3, "confirmed"⟩]⟩
      ⟨1, none, none, true⟩ ⟨1, 10, 20, 1, "ab", 3, "confirmed"⟩
      (by decide) rfl (by decide) rfl).1 99 "cd" 2,
   (duplicate_registration_rejected
      ⟨[⟨1, none, none, true⟩], [⟨1, 10, 20, 1, "ab", 3, "confirmed"⟩]⟩
      ⟨1, none, none, true⟩ ⟨1, 10, 20, 1, "ab", 3, "confirmed"⟩
      (by decide) rfl (by decide) rfl).2 11 99 2 (by decide)
      (by decide) (by decide)⟩

/-! ## Claim C6: inactive-game rejection -/

/-- C6.  A registration attempt for a game that does not exist or whose
`is_active` flag is false fails with the inactive/unavailable-game error and
creates no registration: the stored state is unchanged. -/
theorem inactive_game_rejected (db : DB) (game_id user_id chat_id : Nat)
    (team_name : String) (players : Nat)
    (h : findGame db game_id = none ∨
         ∃ g, findGame db game_id = some g ∧ g.is_active = false) :
    register db game_id user_id chat_id team_name players = .error .InactiveGame
    ∧ registerRun db game_id user_id chat_id team_name players = db := by
  have hreg : register db game_id user_id chat_id team_name players
      = .error .InactiveGame := by
    rcases h with hnone | ⟨g, hsome, hinact⟩
    · simp [register, hnone]
    · simp [register, hsome, hinact]
  exact ⟨hreg, by simp [registerRun, hreg]⟩

/-- Witness for C6: an inactive game rejects the attempt and leaves the
store unchanged. -/
theorem inactive_game_rejected_witness :
    register ⟨[⟨1, none, none, false⟩], []⟩ 1 5 6 "ab" 3 = .error .InactiveGame
    ∧ registerRun ⟨[⟨1, none, none, false⟩], []⟩ 1 5 6 "ab" 3
        = ⟨[⟨1, none, none, false⟩], []⟩ :=
  inactive_game_rejected ⟨[⟨1, none, none, false⟩], []⟩ 1 5 6 "ab" 3
    (Or.inr ⟨⟨1, none, none, false⟩, rfl, rfl⟩)

/-! ## Claim C7: frame of editPlayers and delete -/

/-- C7.  For every registration r' other than the one being operated on,
`edit_players_apply` and `delete_registration` leave r' entirely unchanged:
whenever the operation succeeds, r' is still present with all its fields
(in particular its status) intact. -/
theorem frame_of_edit_and_delete (db : DB) (reg_id user_id players : Nat)
    (r' : Registration) (h' : r' ∈ db.regs) (hne : r'.id ≠ reg_id) :
    (∀ db', edit_players_apply db reg_id user_id players = .ok db' → r' ∈ db'.regs)
    ∧ (∀ db', delete_registration db reg_id user_id = .ok db' → r' ∈ db'.regs) := by
  have hb : (r'.id == reg_id) = false := by
    simp [hne]
  constructor
  · intro db' hok
    unfold edit_players_apply at hok
    split at hok
    · cases hok
    · split at hok
      · cases hok
      · split at hok
        · cases hok
        · split at hok
          · cases hok
          · cases hok
            refine List.mem_map.mpr ⟨_, List.mem_map.mpr ⟨r', h', rfl⟩, ?_⟩
            rw [hb]
            simp only [Bool.false_eq_true, if_false]
            rw [hb]
            simp only [Bool.false_eq_true, if_false]
  · intro db' hok
    unfold delete_registration at hok
    split at hok
    · cases hok
    · split at hok
      · cases hok
      · cases hok
        exact List.mem_filter.mpr ⟨h', by simp only [bne_iff_ne, ne_eq]; exact hne⟩

/-- Witness for C7: editing registration 1 and deleting registration 1 both
leave registration 2 (another team of the same game) in place unchanged. -/
theorem frame_of_edit_and_delete_witness :
    (⟨2, 11, 21, 1, "cd", 4, "confirmed"⟩ : Registration) ∈
      (DB.mk [⟨1, none, none, true⟩]
        [⟨1, 10, 20, 1, "ab", 5, "confirmed"⟩, ⟨2, 11, 21, 1, "cd", 4, "confirmed"⟩]).regs
    ∧ (⟨2, 11, 21, 1, "cd", 4, "confirmed"⟩ : Registration) ∈
      (DB.mk [⟨1, none, none, true⟩] [⟨2, 11, 21, 1, "cd", 4, "confirmed"⟩]).regs :=
  ⟨(frame_of_edit_and_delete
      ⟨[⟨1, none, none, true⟩],
       [⟨1, 10, 20, 1, "ab", 3, "confirmed"⟩, ⟨2, 11, 21, 1, "cd", 4, "confirmed"⟩]⟩
      1 10 5 ⟨2, 11, 21, 1, "cd", 4, "confirmed"⟩ (by decide) (by decide)).1
    (DB.mk [⟨1, none, none, true⟩]
      [⟨1, 10, 20, 1, "ab", 5, "confirmed"⟩, ⟨2, 11, 21, 1, "cd", 4, "confirmed"⟩])
    rfl,
   (frame_of_edit_and_delete
      ⟨[⟨1, none, none, true⟩],
       [⟨1, 10, 20, 1, "ab", 3, "confirmed"⟩, ⟨2, 11, 21, 1, "cd", 4, "confirmed"⟩]⟩
      1 10 5 ⟨2, 11, 21, 1, "cd", 4, "confirmed"⟩ (by decide) (by decide)).2
    (DB.mk [⟨1, none, none, true⟩] [⟨2, 11, 21, 1, "cd", 4, "confirmed"⟩])
    rfl⟩

/-! ## Claim C8: cascade on game deletion -/

/-- C8.  Deleting a Game removes the Game and every Registration whose game
reference is that Game; registrations and games not referencing it are all
preserved, and nothing new appears. -/
theorem game_deletion_cascades (db : DB) (game_id : Nat) (db' : DB)
    (hok : admin_delete_game db game_id = .ok db') :
    (∀ g ∈ db'.games, g.id ≠ game_id)
    ∧ (∀ r ∈ db'.regs, r.game_id ≠ game_id)
    ∧ (∀ r ∈ db.regs, r.game_id ≠ game_id → r ∈ db'.regs)
    ∧ (∀ g ∈ db.games, g.id ≠ game_id → g ∈ db'.games)
    ∧ (∀ r ∈ db'.regs, r ∈ db.regs) := by
  unfold admin_delete_game at hok
  split at hok
  · cases hok
  · cases hok
    refine ⟨?_, ?_, ?_, ?_, ?_⟩
    · intro g hg
      have := (List.mem_filter.mp hg).2
      simpa using this
    · intro r hr
      have := (List.mem_filter.mp hr).2
      simpa using this
    · intro r hr hne
      exact List.mem_filter.mpr ⟨hr, by simpa using hne⟩
    · intro g hg hne
      exact List.mem_filter.mpr ⟨hg, by simpa using hne⟩
    · intro r hr
      exact (List.mem_filter.mp hr).1

/-- Witness for C8: deleting game 1 removes it and its two registrations
while the game-2 registration survives. -/
theorem game_deletion_cascades_witness :
    (∀ g ∈ (DB.mk [⟨2, none, none, true⟩] [⟨3, 12, 22, 2, "ef", 2, "waitlist"⟩]).games,
        g.id ≠ 1)
    ∧ (∀ r ∈ (DB.mk [⟨2, none, none, true⟩] [⟨3, 12, 22, 2, "ef", 2, "waitlist"⟩]).regs,
        r.game_id ≠ 1)
    ∧ (∀ r ∈ (DB.mk [⟨1, some 2, none, true⟩, ⟨2, none, none, true⟩]
          [⟨1, 10, 20, 1, "ab", 3, "confirmed"⟩, ⟨2, 11, 21, 1, "cd", 4, "waitlist"⟩,
           ⟨3, 12, 22, 2, "ef", 2, "waitlist"⟩]).regs,
        r.game_id ≠ 1 →
        r ∈ (DB.mk [⟨2, none, none, true⟩] [⟨3, 12, 22, 2, "ef", 2, "waitlist"⟩]).regs)
    ∧ (∀ g ∈ (DB.mk [⟨1, some 2, none, true⟩, ⟨2, none, none, true⟩]
          [⟨1, 10, 20, 1, "ab", 3, "confirmed"⟩, ⟨2, 11, 21, 1, "cd", 4, "waitlist"⟩,
           ⟨3, 12, 22, 2, "ef", 2, "waitlist"⟩]).games,
        g.id ≠ 1 →
        g ∈ (DB.mk [⟨2, none, none, true⟩] [⟨3, 12, 22, 2, "ef", 2, "waitlist"⟩]).games)
    ∧ (∀ r ∈ (DB.mk [⟨2, none, none, true⟩] [⟨3, 12, 22, 2, "ef", 2, "waitlist"⟩]).regs,
        r ∈ (DB.mk [⟨1, some 2, none, true⟩, ⟨2, none, none, true⟩]
          [⟨1, 10, 20, 1, "ab", 3, "confirmed"⟩, ⟨2, 11, 21, 1, "cd", 4, "waitlist"⟩,
           ⟨3, 12, 22, 2, "ef", 2, "waitlist"⟩]).regs) :=
  game_deletion_cascades
    ⟨[⟨1, some 2, none, true⟩, ⟨2, none, none, true⟩],
     [⟨1, 10, 20, 1, "ab", 3, "confirmed"⟩, ⟨2, 11, 21, 1, "cd", 4, "waitlist"⟩,
      ⟨3, 12, 22, 2, "ef", 2, "waitlist"⟩]⟩
    1
    ⟨[⟨2, none, none, true⟩], [⟨3, 12, 22, 2, "ef", 2, "waitlist"⟩]⟩
    rfl

/-! ## Claim C9: status domain invariant -/

theorem statusOk_createStatus (tc pc : Option Nat) (a b c : Nat) :
    statusOk (createStatus tc pc a b c) := by
  rcases createStatus_cases tc pc a b c with h | h
  · exact Or.inr h
  · exact Or.inl h

theorem statusOk_editStatus (tc pc : Option Nat) (a b c : Nat) :
    statusOk (editStatus tc pc a b c) := by
  rcases editStatus_cases tc pc a b c with h | h
  · exact Or.inr h
  · exact Or.inl h

/-- C9.  Status domain invariant: starting from a store in which every
registration's status is `"confirmed"` or `"waitlist"`, every operation
(register, editPlayers, editTeamName, delete, game activation toggle, game
deletion) preserves that property — no operation ever writes any other
value. -/
theorem status_domain_invariant (db : DB) (hinv : dbInv db) :
    (∀ game_id user_id chat_id team_name players db',
        register db game_id user_id chat_id team_name players = .ok db' → dbInv db')
    ∧ (∀ reg_id user_id players db',
        edit_players_apply db reg_id user_id players = .ok db' → dbInv db')
    ∧ (∀ reg_id user_id team_name db',
        edit_name_apply db reg_id user_id team_name = .ok db' → dbInv db')
    ∧ (∀ reg_id user_id db',
        delete_registration db reg_id user_id = .ok db' → dbInv db')
    ∧ (∀ game_id db',
        admin_toggle_game db game_id = .ok db' → dbInv db')
    ∧ (∀ game_id db',
        admin_delete_game db game_id = .ok db' → dbInv db') := by
  refine ⟨?_, ?_, ?_, ?_, ?_, ?_⟩
  · intro game_id user_id chat_id team_name players db' hok
    unfold register at hok
    split at hok
    · cases hok
    · split at hok
      · cases hok
      · split at hok
        · cases hok
        · split at hok
          · cases hok
          · split at hok
            · cases hok
            · split at hok
              · cases hok
              · cases hok
                intro r hr
                rcases List.mem_append.mp hr with hL | hR
                · exact hinv r hL
                · have hr' := List.mem_singleton.mp hR
                  subst hr'
                  exact statusOk_createStatus _ _ _ _ _
  · intro reg_id user_id players db' hok
    unfold edit_players_apply at hok
    split at hok
    · cases hok
    · split at hok
      · cases hok
      · split at hok
        · cases hok
        · split at hok
          · cases hok
          · cases hok
            intro r hr
            rcases List.mem_map.mp hr with ⟨r1, hr1, hr1eq⟩
            rcases List.mem_map.mp hr1 with ⟨r0, hr0, hr0eq⟩
            subst hr1eq
            subst hr0eq
            by_cases hid : (r0.id == reg_id) = true
            · simp only [hid, if_true]
              exact statusOk_editStatus _ _ _ _ _
            · simp only [Bool.not_eq_true] at hid
              simp only [hid, Bool.false_eq_true, if_false]
              exact hinv r0 hr0
  · intro reg_id user_id team_name db' hok
    unfold edit_name_apply at hok
    split at hok
    · cases hok
    · split at hok
      · cases hok
      · split at hok
        · cases hok
        · split at hok
          · cases hok
          · cases hok
            intro r hr
            rcases List.mem_map.mp hr with ⟨r0, hr0, hr0eq⟩
            subst hr0eq
            by_cases hid : (r0.id == reg_id) = true
            · simp only [hid, if_true]
              exact hinv r0 hr0
            · simp only [Bool.not_eq_true] at hid
              simp only [hid, Bool.false_eq_true, if_false]
              exact hinv r0 hr0
  · intro reg_id user_id db' hok
    unfold delete_registration at hok
    split at hok
    · cases hok
    · split at hok
      · cases hok
      · cases hok
        intro r hr
        exact hinv r (List.mem_filter.mp hr).1
  · intro game_id db' hok
    unfold admin_toggle_game at hok
    split at hok
    · cases hok
    · cases hok
      intro r hr
      exact hinv r hr
  · intro game_id db' hok
    unfold admin_delete_game at hok
    split at hok
    · cases hok
    · cases hok
      intro r hr
      exact hinv r (List.mem_filter.mp hr).1

/-- Witness for C9: a successful registration against a full game writes the
status `"waitlist"` and the store stays within the two-value domain. -/
theorem status_domain_invariant_witness :
    dbInv ⟨[⟨1, some 1, none, true⟩],
           [⟨1, 10, 20, 1, "ab", 3, "confirmed"⟩, ⟨2, 11, 21, 1, "cd", 2, "waitlist"⟩]⟩ :=
  (status_domain_invariant
      ⟨[⟨1, some 1, none, true⟩], [⟨1, 10, 20, 1, "ab", 3, "confirmed"⟩]⟩
      (by decide)).1 1 11 21 "cd" 2
    ⟨[⟨1, some 1, none, true⟩],
     [⟨1, 10, 20, 1, "ab", 3, "confirmed"⟩, ⟨2, 11, 21, 1, "cd", 2, "waitlist"⟩]⟩
    rfl
